import Mathlib

/-!
Shallow embedding of the feedback ingestion and enrichment pipeline
(Express server: AI retry wrapper, POST/GET/PATCH handlers, dual storage).

JSON values are modelled by an inductive `Json`; JavaScript truthiness by
`Json.truthy`.  The AI provider is modelled as a stub `Nat → GenOutcome`
giving the outcome of each successive invocation; the retry wrapper
`generateContentWithRetry` mirrors the source loop, recording the number of
provider invocations and the backoff delays it would await.
-/

namespace FeedbackApp

/-- A JSON value as manipulated by the JavaScript handlers. -/
inductive Json where
  | null : Json
  | bool : Bool → Json
  | num : Int → Json
  | str : String → Json
  | arr : List Json → Json
  | obj : List (String × Json) → Json

/-- JavaScript truthiness of a JSON value (`null`, `false`, `0`, `""` are falsy). -/
def Json.truthy : Json → Bool
  | .null => false
  | .bool b => b
  | .num n => decide (n ≠ 0)
  | .str s => decide (s ≠ "")
  | .arr _ => true
  | .obj _ => true

/-- Truthiness of a possibly-absent (`undefined`) field. -/
def jsTruthyOpt : Option Json → Bool
  | none => false
  | some j => j.truthy

/-- Whether a JSON object has a field with the given key. -/
def Json.hasField (j : Json) (k : String) : Bool :=
  match j with
  | .obj fields => fields.any (fun p => p.1 == k)
  | _ => false

/-- All four AnalysisResult fields are present. -/
def hasAllFour (j : Json) : Bool :=
  j.hasField "userResponse" && j.hasField "summary" &&
    j.hasField "recommendedActions" && j.hasField "sentiment"

/-- The fixed fallback AnalysisResult substituted when enrichment fails
(source lines 172-177). -/
def fallbackAnalysis : Json :=
  .obj [("userResponse",
          .str "Thank you for your feedback! We appreciate you taking the time to share your thoughts."),
        ("summary", .str "AI analysis unavailable at this moment."),
        ("recommendedActions",
          .arr [.str "Check API Quota/Connection", .str "Review logs manually"]),
        ("sentiment", .str "Neutral")]

/-- An error thrown by the provider SDK: an optional HTTP status and whether
the message text contains the substring 429. -/
structure ProviderError where
  status : Option Int
  messageHas429 : Bool
deriving DecidableEq

/-- A successful provider response.  `text` models `response.text`:
`none` when the text field is absent or falsy, `some none` when the text is
present but `JSON.parse` throws, `some (some j)` when it parses to `j`. -/
structure ProviderResponse where
  text : Option (Option Json)

/-- Outcome of one provider invocation. -/
inductive GenOutcome where
  | ok : ProviderResponse → GenOutcome
  | err : ProviderError → GenOutcome

/-- A transient failure: HTTP 429 or 503, or a message mentioning 429
(source line 109). -/
def isTransient (e : ProviderError) : Bool :=
  e.status == some 429 || e.status == some 503 || e.messageHas429

/-- Result of `generateContentWithRetry`. -/
inductive RetryResult where
  | disabled : RetryResult
  | success : ProviderResponse → RetryResult
  | thrown : ProviderError → RetryResult
  | exhausted : RetryResult

/-- Observable trace of one `generateContentWithRetry` call: its result, the
number of provider invocations, and the backoff delays awaited (in ms). -/
structure RetryTrace where
  result : RetryResult
  invocations : Nat
  totalDelay : Nat
  delays : List Nat

/-- The retry loop body (source lines 79-119).  `remaining` counts the loop
iterations still allowed, `i` is the JavaScript loop index, `inv`, `acc` and
`ds` accumulate invocations and delays.  A fatal error is rethrown only on
the final attempt (`i === retries - 1`); otherwise the loop continues with
no delay.  Transient errors back off `initialDelay * 2 ^ i` unless this was
the last allowed attempt. -/
def retryAux (stub : Nat → GenOutcome) (retries initialDelay : Nat) :
    Nat → Nat → Nat → Nat → List Nat → RetryTrace
  | 0, _, inv, acc, ds =>
      { result := .exhausted, invocations := inv, totalDelay := acc, delays := ds }
  | remaining + 1, i, inv, acc, ds =>
      match stub i with
      | .ok resp =>
          { result := .success resp, invocations := inv + 1, totalDelay := acc, delays := ds }
      | .err e =>
          if isTransient e && decide (i + 1 < retries) then
            retryAux stub retries initialDelay remaining (i + 1) (inv + 1)
              (acc + initialDelay * 2 ^ i) (ds ++ [initialDelay * 2 ^ i])
          else if i + 1 = retries then
            { result := .thrown e, invocations := inv + 1, totalDelay := acc, delays := ds }
          else
            retryAux stub retries initialDelay remaining (i + 1) (inv + 1) acc ds

/-- `generateContentWithRetry(prompt, retries = 3, initialDelay = 1000)`
(source lines 76-120): returns null immediately when no AI credential is
configured (`genAI` is null), otherwise runs the retry loop against the
provider stub. -/
def generateContentWithRetry (genAI : Bool) (stub : Nat → GenOutcome)
    (retries initialDelay : Nat) : RetryTrace :=
  if genAI then retryAux stub retries initialDelay retries 0 0 0 []
  else { result := .disabled, invocations := 0, totalDelay := 0, delays := [] }

/-- A stored submission (shape fixed by `newSubmission`, source lines
181-188).  `rating` and `reviewText` are `Option` because the handler never
validates their presence: an absent body field is stored as `undefined`. -/
structure Submission where
  id : String
  rating : Option Json
  reviewText : Option Json
  timestamp : Nat
  aiAnalysis : Json
  helpfulResponse : Json

/-- The fields of a POST request body the handler reads (source lines
141-142); `none` models an absent field. -/
structure PostBody where
  rating : Option Json
  reviewText : Option Json
  aiAnalysis : Option Json

/-- Process environment of one POST request: whether an AI credential is
configured, the provider's behaviour per invocation, the fresh uuid and the
current clock value. -/
structure Env where
  genAI : Bool
  stub : Nat → GenOutcome
  freshId : String
  now : Nat

/-- Body of an HTTP response produced by the handlers. -/
inductive RespBody where
  | sub : Submission → RespBody
  | subs : List Submission → RespBody
  | jnull : RespBody
  | message : String → RespBody

/-- An HTTP response: status code and JSON body. -/
structure HttpResponse where
  status : Nat
  body : RespBody

/-- `aiAnalysis = JSON.parse(response.text)` guarded by
`if (response && response.text)` (source lines 162-164): yields the parsed
value only when the retry call succeeded with truthy, parseable text. -/
def parseRetryResponse : RetryResult → Option Json
  | .success r =>
      match r.text with
      | some (some j) => some j
      | _ => none
  | _ => none

/-- The enrichment step of the POST handler (source lines 146-178): parse
the provider response if any; if the resulting `aiAnalysis` is still falsy
(call disabled, thrown, unparseable, or parsed to a falsy value),
substitute the fixed fallback. -/
def enrichAnalysis (tr : RetryTrace) : Json :=
  match parseRetryResponse tr.result with
  | some j => if j.truthy then j else fallbackAnalysis
  | none => fallbackAnalysis

/-- Observable outcome of one POST request: the HTTP response, the store
after the request, and the provider invocations and backoff delay incurred. -/
structure PostResult where
  resp : HttpResponse
  store : List Submission
  invocations : Nat
  totalDelay : Nat

/-- Build `newSubmission`, append it to the store and answer 201 (source
lines 181-197, in-memory backend). -/
def mkPostResult (env : Env) (body : PostBody) (analysis : Json)
    (store : List Submission) (inv d : Nat) : PostResult :=
  let s : Submission :=
    { id := env.freshId, rating := body.rating, reviewText := body.reviewText,
      timestamp := env.now, aiAnalysis := analysis, helpfulResponse := .null }
  { resp := { status := 201, body := .sub s }, store := store ++ [s],
    invocations := inv, totalDelay := d }

/-- The POST `/api/feedback` handler (source lines 139-202, in-memory
backend): if the body carries a truthy `aiAnalysis` it is persisted
verbatim with no provider call; otherwise the handler runs
`generateContentWithRetry(prompt)` (defaults 3 attempts, 1000 ms) and
enriches, falling back on any failure. -/
def postFeedback (env : Env) (body : PostBody) (store : List Submission) :
    PostResult :=
  if jsTruthyOpt body.aiAnalysis then
    mkPostResult env body (body.aiAnalysis.getD .null) store 0 0
  else
    let tr := generateContentWithRetry env.genAI env.stub 3 1000
    mkPostResult env body (enrichAnalysis tr) store tr.invocations tr.totalDelay

/-- The fields a PATCH body may supply; `none` means the key is absent from
the request body. -/
structure PatchBody where
  id : Option String
  rating : Option Json
  reviewText : Option Json
  timestamp : Option Nat
  aiAnalysis : Option Json
  helpfulResponse : Option Json

/-- The JavaScript spread merge `{ ...stored, ...req.body }` (source line
218): supplied fields overwrite, all others are left untouched. -/
def mergePatch (s : Submission) (p : PatchBody) : Submission :=
  { id := p.id.getD s.id,
    rating := match p.rating with | some j => some j | none => s.rating,
    reviewText := match p.reviewText with | some j => some j | none => s.reviewText,
    timestamp := p.timestamp.getD s.timestamp,
    aiAnalysis := p.aiAnalysis.getD s.aiAnalysis,
    helpfulResponse := p.helpfulResponse.getD s.helpfulResponse }

/-- Linear scan for the first record whose `id` matches, replaced in place
by the merged record (source lines 216-219: `findIndex` over `id` equality
followed by a spread merge); `none` when no record matches. -/
def updateById : List Submission → String → PatchBody →
    Option (Submission × List Submission)
  | [], _, _ => none
  | s :: rest, i, b =>
      if s.id = i then
        some (mergePatch s b, mergePatch s b :: rest)
      else
        match updateById rest i b with
        | some (m, rest2) => some (m, s :: rest2)
        | none => none

/-- The PATCH `/api/feedback/:id` handler over the in-memory backend
(source lines 215-222): 200 with the merged record when found, otherwise
404 with a message. -/
def patchInMemory (store : List Submission) (i : String) (b : PatchBody) :
    HttpResponse × List Submission :=
  match updateById store i b with
  | some (m, store2) => ({ status := 200, body := .sub m }, store2)
  | none => ({ status := 404, body := .message "Not found" }, store)

/-- The PATCH `/api/feedback/:id` handler over the durable backend (source
lines 208-214).  Modelled from the spec: the document database's
`findOneAndUpdate` with a field-set update and the return-updated option
(the database itself is not part of the repository source) finds the record
by `id`, merges the supplied fields and returns the updated record, yielding
a null result when no record matches.  The handler then answers
`res.json(updatedFeedback)` with no explicit status, so a miss produces 200
with a null body. -/
def patchMongo (store : List Submission) (i : String) (b : PatchBody) :
    HttpResponse × List Submission :=
  match updateById store i b with
  | some (m, store2) => ({ status := 200, body := .sub m }, store2)
  | none => ({ status := 200, body := .jnull }, store)

/-- Insert a submission before the first strictly older one (descending
timestamps). -/
def insertDesc (s : Submission) : List Submission → List Submission
  | [] => [s]
  | t :: ts => if t.timestamp ≤ s.timestamp then s :: t :: ts else t :: insertDesc s ts

/-- Stable sort by descending timestamp, the effect of
`sort((a, b) => b.timestamp - a.timestamp)` (source line 131). -/
def sortByTimestampDesc : List Submission → List Submission
  | [] => []
  | s :: ss => insertDesc s (sortByTimestampDesc ss)

/-- GET `/api/feedback` over the in-memory backend (source line 131):
returns the stored records sorted by descending timestamp. -/
def listAllMemory (store : List Submission) : List Submission :=
  sortByTimestampDesc store

/-- GET `/api/feedback` over the durable backend (source line 128).
Modelled from the spec: `listAll` requests a server-side
descending-timestamp sort from the document database, which is not part of
the repository source; records are kept in insertion order and returned
sorted by descending timestamp. -/
def listAllMongo (store : List Submission) : List Submission :=
  sortByTimestampDesc store

/-! ## Concrete fixtures used by witnesses and counterexamples -/

/-- A provider error with a non-transient status (HTTP 500). -/
def fatalError : ProviderError :=
  { status := some 500, messageHas429 := false }

/-- A provider stub that fails with a non-transient error on every attempt. -/
def fatalStub : Nat → GenOutcome := fun _ => .err fatalError

/-- An environment with no AI credential configured. -/
def envDisabled : Env :=
  { genAI := false, stub := fatalStub, freshId := "id-1", now := 5 }

/-- A well-formed provider payload. -/
def sampleProviderJson : Json :=
  .obj [("userResponse", .str "Thanks!"), ("summary", .str "Positive review."),
        ("recommendedActions", .arr [.str "a", .str "b", .str "c"]),
        ("sentiment", .str "Positive")]

/-- A successful provider response whose text parses to
`sampleProviderJson`. -/
def okResp : ProviderResponse :=
  { text := some (some sampleProviderJson) }

/-- A provider stub failing transiently (429 then 503) on the first two
attempts and succeeding on the third. -/
def transientStub : Nat → GenOutcome := fun i =>
  if i = 0 then .err { status := some 429, messageHas429 := false }
  else if i = 1 then .err { status := some 503, messageHas429 := false }
  else .ok okResp

/-- A client-supplied analysis value lacking the four required fields. -/
def bogusAnalysis : Json :=
  .obj [("bogus", .bool true)]

/-- A PATCH body supplying nothing. -/
def emptyPatch : PatchBody :=
  { id := none, rating := none, reviewText := none, timestamp := none,
    aiAnalysis := none, helpfulResponse := none }

/-- The PATCH body supplying only `helpfulResponse: true`. -/
def helpfulTruePatch : PatchBody :=
  { id := none, rating := none, reviewText := none, timestamp := none,
    aiAnalysis := none, helpfulResponse := some (.bool true) }

/-! ## Helper lemmas about the retry loop and enrichment -/

theorem retryAux_no_success (stub : Nat → GenOutcome)
    (hf : ∀ n resp, stub n ≠ .ok resp) (retries d : Nat) :
    ∀ remaining i inv acc ds resp,
      (retryAux stub retries d remaining i inv acc ds).result ≠ .success resp := by
  intro remaining
  induction remaining with
  | zero => intro i inv acc ds resp h; simp [retryAux] at h
  | succ r ih =>
      intro i inv acc ds resp h
      rcases hs : stub i with resp2 | e
      · exact hf i resp2 hs
      · rw [retryAux, hs] at h
        dsimp only at h
        by_cases h1 : isTransient e && decide (i + 1 < retries)
        · rw [if_pos h1] at h
          exact ih (i + 1) (inv + 1) (acc + d * 2 ^ i) (ds ++ [d * 2 ^ i]) resp h
        · rw [if_neg h1] at h
          by_cases h2 : i + 1 = retries
          · rw [if_pos h2] at h
            simp at h
          · rw [if_neg h2] at h
            exact ih (i + 1) (inv + 1) acc ds resp h

theorem retryAux_success_invoked (stub : Nat → GenOutcome) (retries d : Nat) :
    ∀ remaining i inv acc ds resp,
      (retryAux stub retries d remaining i inv acc ds).result = .success resp →
      ∃ n, stub n = .ok resp := by
  intro remaining
  induction remaining with
  | zero => intro i inv acc ds resp h; simp [retryAux] at h
  | succ r ih =>
      intro i inv acc ds resp h
      rcases hs : stub i with resp2 | e
      · rw [retryAux, hs] at h
        simp at h
        exact ⟨i, by rw [hs, h]⟩
      · rw [retryAux, hs] at h
        dsimp only at h
        by_cases h1 : isTransient e && decide (i + 1 < retries)
        · rw [if_pos h1] at h
          exact ih (i + 1) (inv + 1) (acc + d * 2 ^ i) (ds ++ [d * 2 ^ i]) resp h
        · rw [if_neg h1] at h
          by_cases h2 : i + 1 = retries
          · rw [if_pos h2] at h
            simp at h
          · rw [if_neg h2] at h
            exact ih (i + 1) (inv + 1) acc ds resp h

theorem enrichAnalysis_eq_fallback (tr : RetryTrace)
    (h : ∀ resp, tr.result ≠ .success resp) :
    enrichAnalysis tr = fallbackAnalysis := by
  unfold enrichAnalysis parseRetryResponse
  rcases hr : tr.result with _ | resp | e | _
  · rfl
  · exact absurd hr (h resp)
  · rfl
  · rfl

theorem hasAllFour_fallback : hasAllFour fallbackAnalysis = true := by
  decide

theorem hasAllFour_ne_null (j : Json) (h : hasAllFour j = true) : j ≠ .null := by
  intro he
  rw [he] at h
  simp [hasAllFour, Json.hasField] at h

theorem generate_disabled (stub : Nat → GenOutcome) (retries d : Nat) :
    generateContentWithRetry false stub retries d =
      { result := .disabled, invocations := 0, totalDelay := 0, delays := [] } := rfl

/-- When the retry call cannot have succeeded, the POST handler persists the
fixed fallback analysis verbatim. -/
theorem postFeedback_fallback (env : Env) (body : PostBody)
    (store : List Submission) (hb : jsTruthyOpt body.aiAnalysis = false)
    (hns : ∀ resp, (generateContentWithRetry env.genAI env.stub 3 1000).result ≠ .success resp) :
    postFeedback env body store =
      mkPostResult env body fallbackAnalysis store
        (generateContentWithRetry env.genAI env.stub 3 1000).invocations
        (generateContentWithRetry env.genAI env.stub 3 1000).totalDelay := by
  unfold postFeedback
  rw [hb]
  simp only [Bool.false_eq_true, if_false]
  rw [enrichAnalysis_eq_fallback _ hns]

theorem retryAux_step_ok (stub : Nat → GenOutcome)
    (retries d remaining i inv acc : Nat) (ds : List Nat)
    (resp : ProviderResponse) (hs : stub i = .ok resp) :
    retryAux stub retries d (remaining + 1) i inv acc ds =
      { result := .success resp, invocations := inv + 1, totalDelay := acc,
        delays := ds } := by
  rw [retryAux, hs]

theorem retryAux_step_transient (stub : Nat → GenOutcome)
    (retries d remaining i inv acc : Nat) (ds : List Nat)
    (e : ProviderError) (hs : stub i = .err e) (ht : isTransient e = true)
    (hlt : i + 1 < retries) :
    retryAux stub retries d (remaining + 1) i inv acc ds =
      retryAux stub retries d remaining (i + 1) (inv + 1)
        (acc + d * 2 ^ i) (ds ++ [d * 2 ^ i]) := by
  rw [retryAux, hs]
  dsimp only
  rw [ht]
  simp [hlt]

theorem retryAux_step_fatal (stub : Nat → GenOutcome)
    (retries d remaining i inv acc : Nat) (ds : List Nat)
    (e : ProviderError) (hs : stub i = .err e) (ht : isTransient e = false)
    (hne : ¬ i + 1 = retries) :
    retryAux stub retries d (remaining + 1) i inv acc ds =
      retryAux stub retries d remaining (i + 1) (inv + 1) acc ds := by
  rw [retryAux, hs]
  dsimp only
  rw [ht]
  simp [hne]

theorem retryAux_step_fatal_last (stub : Nat → GenOutcome)
    (retries d remaining i inv acc : Nat) (ds : List Nat)
    (e : ProviderError) (hs : stub i = .err e) (ht : isTransient e = false)
    (heq : i + 1 = retries) :
    retryAux stub retries d (remaining + 1) i inv acc ds =
      { result := .thrown e, invocations := inv + 1, totalDelay := acc,
        delays := ds } := by
  rw [retryAux, hs]
  dsimp only
  rw [ht]
  simp [heq]

/-! ## Claim theorems -/

/-- C1: for every submission input (rating, reviewText), if the AI provider
is disabled (no credential) or every provider call fails, `submit` still
succeeds (201) and the returned and persisted Submission's `aiAnalysis` is
exactly the fixed fallback object, independent of the input. -/
theorem submit_fallback_invariant (env : Env) (r rv : Option Json)
    (store : List Submission)
    (h : env.genAI = false ∨ ∀ n resp, env.stub n ≠ .ok resp) :
    ∃ s, (postFeedback env ⟨r, rv, none⟩ store).resp =
        { status := 201, body := .sub s } ∧
      (postFeedback env ⟨r, rv, none⟩ store).store = store ++ [s] ∧
      s.aiAnalysis = fallbackAnalysis := by
  have hns : ∀ resp,
      (generateContentWithRetry env.genAI env.stub 3 1000).result ≠ .success resp := by
    intro resp hc
    rcases h with hg | hf
    · rw [hg] at hc
      simp [generate_disabled] at hc
    · unfold generateContentWithRetry at hc
      by_cases hb : env.genAI = true
      · rw [if_pos hb] at hc
        exact retryAux_no_success env.stub hf 3 1000 3 0 0 0 [] resp hc
      · rw [if_neg hb] at hc
        simp at hc
  rw [postFeedback_fallback env ⟨r, rv, none⟩ store rfl hns]
  exact ⟨_, rfl, rfl, rfl⟩

/-- C1 witness: with no credential configured, posting rating 5 and a
review yields 201 and the fallback analysis. -/
theorem submit_fallback_invariant_witness :
    ∃ s, (postFeedback envDisabled
        ⟨some (.num 5), some (.str "Great service!"), none⟩ []).resp =
        { status := 201, body := .sub s } ∧
      (postFeedback envDisabled
        ⟨some (.num 5), some (.str "Great service!"), none⟩ []).store = [] ++ [s] ∧
      s.aiAnalysis = fallbackAnalysis :=
  submit_fallback_invariant envDisabled (some (.num 5))
    (some (.str "Great service!")) [] (Or.inl rfl)

/-- C2 counterexample: with a provider that fails with a non-transient
error (HTTP 500) on the first attempt, the Retry Executor does NOT invoke
the provider exactly once — it invokes it 3 times (retrying fatal errors
immediately, with zero backoff delay, and throwing only on the final
attempt). -/
theorem fatal_single_invocation_counterexample :
    (generateContentWithRetry true fatalStub 3 1000).invocations = 3 ∧
    (generateContentWithRetry true fatalStub 3 1000).invocations ≠ 1 ∧
    (generateContentWithRetry true fatalStub 3 1000).totalDelay = 0 ∧
    (generateContentWithRetry true fatalStub 3 1000).result = .thrown fatalError := by
  refine ⟨rfl, by decide, rfl, rfl⟩

/-- C2 (amended): if the provider fails with a non-transient (fatal) error
on every attempt, the Retry Executor invokes the provider exactly 3 times
(the default retry bound), retrying immediately with zero backoff delay,
propagates the final failure to its caller, and the enrichment step then
returns the fallback AnalysisResult. -/
theorem fatal_error_exhausts_without_backoff (stub2 : Nat → GenOutcome)
    (hf : ∀ n, ∃ e, stub2 n = .err e ∧ isTransient e = false) :
    ((generateContentWithRetry true stub2 3 1000).invocations = 3 ∧
     (generateContentWithRetry true stub2 3 1000).totalDelay = 0 ∧
     ∃ e, stub2 2 = .err e ∧
       (generateContentWithRetry true stub2 3 1000).result = .thrown e) ∧
    ∀ (fid : String) (now : Nat) (r rv : Option Json) (store : List Submission),
      ∃ s, (postFeedback ⟨true, stub2, fid, now⟩ ⟨r, rv, none⟩ store).resp =
          { status := 201, body := .sub s } ∧ s.aiAnalysis = fallbackAnalysis := by
  obtain ⟨e0, h0, t0⟩ := hf 0
  obtain ⟨e1, h1, t1⟩ := hf 1
  obtain ⟨e2, h2, t2⟩ := hf 2
  have htr : generateContentWithRetry true stub2 3 1000 =
      { result := .thrown e2, invocations := 3, totalDelay := 0, delays := [] } := by
    show retryAux stub2 3 1000 3 0 0 0 [] = _
    rw [retryAux_step_fatal stub2 3 1000 2 0 0 0 [] e0 h0 t0 (by decide)]
    rw [retryAux_step_fatal stub2 3 1000 1 1 1 0 [] e1 h1 t1 (by decide)]
    rw [retryAux_step_fatal_last stub2 3 1000 0 2 2 0 [] e2 h2 t2 (by decide)]
  refine ⟨⟨by rw [htr], by rw [htr], e2, h2, by rw [htr]⟩, ?_⟩
  intro fid now r rv store
  have hns : ∀ resp,
      (generateContentWithRetry (Env.mk true stub2 fid now).genAI
        (Env.mk true stub2 fid now).stub 3 1000).result ≠ .success resp := by
    intro resp hc
    dsimp only at hc
    rw [htr] at hc
    simp at hc
  rw [postFeedback_fallback ⟨true, stub2, fid, now⟩ ⟨r, rv, none⟩ store rfl hns]
  exact ⟨_, rfl, rfl⟩

/-- C2 witness: the amended claim at the always-fatal stub. -/
theorem fatal_error_exhausts_without_backoff_witness :
    ((generateContentWithRetry true fatalStub 3 1000).invocations = 3 ∧
     (generateContentWithRetry true fatalStub 3 1000).totalDelay = 0 ∧
     ∃ e, fatalStub 2 = .err e ∧
       (generateContentWithRetry true fatalStub 3 1000).result = .thrown e) ∧
    ∀ (fid : String) (now : Nat) (r rv : Option Json) (store : List Submission),
      ∃ s, (postFeedback ⟨true, fatalStub, fid, now⟩ ⟨r, rv, none⟩ store).resp =
          { status := 201, body := .sub s } ∧ s.aiAnalysis = fallbackAnalysis :=
  fatal_error_exhausts_without_backoff fatalStub
    (fun _ => ⟨fatalError, rfl, rfl⟩)

/-- C3: with transient failures (429, 503) on the first two attempts and
success on the third, the Retry Executor (defaults: 3 attempts, 1000 ms)
returns the successful result, invokes the provider exactly 3 times, and
backs off 1000 ms then 2000 ms (initialDelay times 2 to the attempt index),
for a total suspension of 3000 ms, at least initialDelay + 2 * initialDelay. -/
theorem retry_transient_then_success (stub2 : Nat → GenOutcome)
    (e0 e1 : ProviderError) (resp : ProviderResponse)
    (h0 : stub2 0 = .err e0) (t0 : isTransient e0 = true)
    (h1 : stub2 1 = .err e1) (t1 : isTransient e1 = true)
    (h2 : stub2 2 = .ok resp) :
    generateContentWithRetry true stub2 3 1000 =
      { result := .success resp, invocations := 3, totalDelay := 3000,
        delays := [1000, 2000] } ∧
    1000 = 1000 * 2 ^ 0 ∧ 2000 = 1000 * 2 ^ 1 ∧ 1000 + 2 * 1000 ≤ 3000 := by
  refine ⟨?_, by norm_num, by norm_num, by norm_num⟩
  show retryAux stub2 3 1000 3 0 0 0 [] = _
  rw [retryAux_step_transient stub2 3 1000 2 0 0 0 [] e0 h0 t0 (by decide)]
  rw [retryAux_step_transient stub2 3 1000 1 1 1 (0 + 1000 * 2 ^ 0)
    ([] ++ [1000 * 2 ^ 0]) e1 h1 t1 (by decide)]
  rw [retryAux_step_ok stub2 3 1000 0 2 2
    (0 + 1000 * 2 ^ 0 + 1000 * 2 ^ 1)
    (([] ++ [1000 * 2 ^ 0]) ++ [1000 * 2 ^ 1]) resp h2]
  norm_num

/-- C3 witness: the concrete 429/503-then-success stub. -/
theorem retry_transient_then_success_witness :
    generateContentWithRetry true transientStub 3 1000 =
      { result := .success okResp, invocations := 3, totalDelay := 3000,
        delays := [1000, 2000] } ∧
    1000 = 1000 * 2 ^ 0 ∧ 2000 = 1000 * 2 ^ 1 ∧ 1000 + 2 * 1000 ≤ 3000 :=
  retry_transient_then_success transientStub
    { status := some 429, messageHas429 := false }
    { status := some 503, messageHas429 := false } okResp rfl rfl rfl rfl rfl

/-- C9: when no AI credential is configured, the Retry Executor returns
null immediately — zero provider invocations and zero backoff delay — and
the submit path falls through to the fixed fallback AnalysisResult. -/
theorem disabled_short_circuit (stub2 : Nat → GenOutcome) (retries d : Nat)
    (env : Env) (body : PostBody) (store : List Submission)
    (hg : env.genAI = false) (hb : jsTruthyOpt body.aiAnalysis = false) :
    generateContentWithRetry false stub2 retries d =
      { result := .disabled, invocations := 0, totalDelay := 0, delays := [] } ∧
    (postFeedback env body store).invocations = 0 ∧
    (postFeedback env body store).totalDelay = 0 ∧
    ∃ s, (postFeedback env body store).resp = { status := 201, body := .sub s } ∧
      s.aiAnalysis = fallbackAnalysis := by
  have hns : ∀ resp,
      (generateContentWithRetry env.genAI env.stub 3 1000).result ≠ .success resp := by
    intro resp hc
    rw [hg] at hc
    simp [generate_disabled] at hc
  rw [postFeedback_fallback env body store hb hns]
  refine ⟨rfl, ?_, ?_, _, rfl, rfl⟩
  · show (generateContentWithRetry env.genAI env.stub 3 1000).invocations = 0
    rw [hg, generate_disabled]
  · show (generateContentWithRetry env.genAI env.stub 3 1000).totalDelay = 0
    rw [hg, generate_disabled]

/-- C9 witness: the disabled environment with an empty body. -/
theorem disabled_short_circuit_witness :
    generateContentWithRetry false fatalStub 3 1000 =
      { result := .disabled, invocations := 0, totalDelay := 0, delays := [] } ∧
    (postFeedback envDisabled ⟨none, none, none⟩ []).invocations = 0 ∧
    (postFeedback envDisabled ⟨none, none, none⟩ []).totalDelay = 0 ∧
    ∃ s, (postFeedback envDisabled ⟨none, none, none⟩ []).resp =
        { status := 201, body := .sub s } ∧
      s.aiAnalysis = fallbackAnalysis :=
  disabled_short_circuit fatalStub 3 1000 envDisabled ⟨none, none, none⟩ [] rfl rfl

theorem hasAllFour_truthy (j : Json) (h : hasAllFour j = true) :
    j.truthy = true := by
  cases j <;> simp_all [hasAllFour, Json.hasField, Json.truthy]

/-- C4 counterexample: a POST body carrying a truthy, malformed
`aiAnalysis` is accepted (201) and persisted verbatim, so the stored
Submission lacks the four AnalysisResult fields. -/
theorem persisted_analysis_counterexample :
    (postFeedback envDisabled
      ⟨some (.num 5), some (.str "x"), some bogusAnalysis⟩ []).resp.status = 201 ∧
    ((postFeedback envDisabled
      ⟨some (.num 5), some (.str "x"), some bogusAnalysis⟩ []).store.map
        (fun s => hasAllFour s.aiAnalysis)) = [false] :=
  ⟨rfl, rfl⟩

/-- C4 (amended): every Submission persisted from a POST body that does not
carry a truthy `aiAnalysis` field has a non-null `aiAnalysis` with all four
AnalysisResult fields present, provided successful provider payloads
conform to the requested response schema; a truthy client-supplied
`aiAnalysis` is persisted verbatim with no shape validation and may lack
the fields. -/
theorem persisted_analysis_fields (env : Env) (body : PostBody)
    (store : List Submission) (hb : jsTruthyOpt body.aiAnalysis = false)
    (hschema : ∀ n resp, env.stub n = .ok resp →
      ∀ j, resp.text = some (some j) → hasAllFour j = true) :
    ∃ s, (postFeedback env body store).store = store ++ [s] ∧
      hasAllFour s.aiAnalysis = true ∧ s.aiAnalysis ≠ .null := by
  have hfour : hasAllFour
      (enrichAnalysis (generateContentWithRetry env.genAI env.stub 3 1000)) = true := by
    unfold enrichAnalysis parseRetryResponse
    rcases hr : (generateContentWithRetry env.genAI env.stub 3 1000).result
      with _ | resp | e | _
    · exact hasAllFour_fallback
    · have hok : ∃ n, env.stub n = .ok resp := by
        unfold generateContentWithRetry at hr
        by_cases hg : env.genAI = true
        · rw [if_pos hg] at hr
          exact retryAux_success_invoked env.stub 3 1000 3 0 0 0 [] resp hr
        · rw [if_neg hg] at hr
          simp at hr
      obtain ⟨n, hn⟩ := hok
      rcases ht : resp.text with _ | ojt
      · simp [ht, hasAllFour_fallback]
      · rcases ojt with _ | jt
        · simp [ht, hasAllFour_fallback]
        · have hj : hasAllFour jt = true := hschema n resp hn jt ht
          simp [ht, hasAllFour_truthy jt hj, hj]
    · exact hasAllFour_fallback
    · exact hasAllFour_fallback
  unfold postFeedback
  rw [hb]
  simp only [Bool.false_eq_true, if_false]
  exact ⟨_, rfl, hfour, hasAllFour_ne_null _ hfour⟩

/-- C4 witness: the amended claim at the disabled environment (no provider
success is possible, so the schema hypothesis holds vacuously). -/
theorem persisted_analysis_fields_witness :
    ∃ s, (postFeedback envDisabled
        ⟨some (.num 4), some (.str "y"), none⟩ []).store = [] ++ [s] ∧
      hasAllFour s.aiAnalysis = true ∧ s.aiAnalysis ≠ .null :=
  persisted_analysis_fields envDisabled ⟨some (.num 4), some (.str "y"), none⟩ []
    rfl (fun n resp h => by simp [envDisabled, fatalStub] at h)

/-- C5 counterexample: a POST with both `rating` and `reviewText`
structurally absent is not rejected — it is accepted with 201 and a
Submission is created. -/
theorem post_missing_fields_counterexample :
    (postFeedback envDisabled ⟨none, none, none⟩ []).resp.status = 201 ∧
    (postFeedback envDisabled ⟨none, none, none⟩ []).store.length = 1 :=
  ⟨rfl, rfl⟩

/-- C5 (amended): the handler performs no structural validation of
`rating` or `reviewText`: a request body lacking both is accepted with 201
and creates a Submission in which both fields are absent. -/
theorem post_accepts_missing_fields (env : Env) (store : List Submission) :
    ∃ s, (postFeedback env ⟨none, none, none⟩ store).resp =
        { status := 201, body := .sub s } ∧
      (postFeedback env ⟨none, none, none⟩ store).store = store ++ [s] ∧
      s.rating = none ∧ s.reviewText = none :=
  ⟨_, rfl, rfl, rfl, rfl⟩

/-- C10: a POST whose body carries a truthy `aiAnalysis` skips enrichment
entirely — zero provider invocations, zero backoff delay — and persists the
client-supplied value verbatim, without validating its shape. -/
theorem client_analysis_verbatim (env : Env) (a : Json) (r rv : Option Json)
    (store : List Submission) (ha : a.truthy = true) :
    postFeedback env ⟨r, rv, some a⟩ store =
      { resp := { status := 201
                  body := .sub ⟨env.freshId, r, rv, env.now, a, .null⟩ },
        store := store ++ [⟨env.freshId, r, rv, env.now, a, .null⟩],
        invocations := 0, totalDelay := 0 } := by
  unfold postFeedback
  dsimp only
  rw [show jsTruthyOpt (some a) = true from ha]
  rfl

/-- C10 witness: a malformed but truthy client analysis is stored verbatim
with no provider call. -/
theorem client_analysis_verbatim_witness :
    postFeedback envDisabled ⟨some (.num 2), some (.str "bad"), some bogusAnalysis⟩ [] =
      { resp := { status := 201
                  body := .sub ⟨envDisabled.freshId, some (.num 2), some (.str "bad"),
                    envDisabled.now, bogusAnalysis, .null⟩ },
        store := [] ++ [⟨envDisabled.freshId, some (.num 2), some (.str "bad"),
          envDisabled.now, bogusAnalysis, .null⟩],
        invocations := 0, totalDelay := 0 } :=
  client_analysis_verbatim envDisabled bogusAnalysis (some (.num 2))
    (some (.str "bad")) [] rfl

theorem updateById_not_found (i : String) (b : PatchBody) :
    ∀ store : List Submission, (∀ s ∈ store, s.id ≠ i) →
      updateById store i b = none := by
  intro store
  induction store with
  | nil => intro h; rfl
  | cons s rest ih =>
      intro h
      have hs : ¬ s.id = i := h s (by simp)
      rw [updateById, if_neg hs, ih (fun t ht => h t (by simp [ht]))]

theorem updateById_found (b : PatchBody) :
    ∀ (pre : List Submission) (old : Submission) (post : List Submission),
      (∀ s ∈ pre, s.id ≠ old.id) →
      updateById (pre ++ old :: post) old.id b =
        some (mergePatch old b, pre ++ mergePatch old b :: post) := by
  intro pre
  induction pre with
  | nil =>
      intro old post h
      simp [updateById]
  | cons s pre2 ih =>
      intro old post h
      have hs : ¬ s.id = old.id := h s (by simp)
      rw [List.cons_append, updateById, if_neg hs,
        ih old post (fun t ht => h t (by simp [ht]))]
      rfl

/-- C6 counterexample: on the durable backend, a PATCH with an unknown id
is answered 200 with a null body, not a 404-equivalent. -/
theorem patch_unknown_mongo_counterexample :
    (patchMongo [] "nonexistent" emptyPatch).1.status = 200 ∧
    (patchMongo [] "nonexistent" emptyPatch).1.status ≠ 404 ∧
    (patchMongo [] "nonexistent" emptyPatch).1.body = .jnull ∧
    (patchMongo [] "nonexistent" emptyPatch).2 = [] :=
  ⟨rfl, by decide, rfl, rfl⟩

/-- C6 (amended): for every id not present in the store, patch leaves the
store unchanged under both backends; the in-memory backend surfaces the
not-found signal as a 404, while the durable backend yields a null result
that the handler surfaces as a 200 with a null body. -/
theorem patch_unknown_id (i : String) (b : PatchBody) (store : List Submission)
    (h : ∀ s ∈ store, s.id ≠ i) :
    patchInMemory store i b =
      ({ status := 404, body := .message "Not found" }, store) ∧
    patchMongo store i b = ({ status := 200, body := .jnull }, store) := by
  have hu := updateById_not_found i b store h
  constructor
  · unfold patchInMemory
    rw [hu]
  · unfold patchMongo
    rw [hu]

/-- C6 witness: the amended claim at an unknown id over a nonempty store. -/
theorem patch_unknown_id_witness :
    patchInMemory [⟨"a", none, none, 1, .null, .null⟩] "nonexistent" emptyPatch =
      ({ status := 404, body := .message "Not found" },
        [⟨"a", none, none, 1, .null, .null⟩]) ∧
    patchMongo [⟨"a", none, none, 1, .null, .null⟩] "nonexistent" emptyPatch =
      ({ status := 200, body := .jnull }, [⟨"a", none, none, 1, .null, .null⟩]) :=
  patch_unknown_id "nonexistent" emptyPatch [⟨"a", none, none, 1, .null, .null⟩]
    (by simp)

/-- C7: submissions inserted with timestamps T1 < T2 < T3 in that order are
returned by listAll in order T3, T2, T1, under both the in-memory and the
durable backend. -/
theorem listing_descending (s1 s2 s3 : Submission)
    (h12 : s1.timestamp < s2.timestamp) (h23 : s2.timestamp < s3.timestamp) :
    listAllMemory [s1, s2, s3] = [s3, s2, s1] ∧
    listAllMongo [s1, s2, s3] = [s3, s2, s1] := by
  have n23 : ¬ s3.timestamp ≤ s2.timestamp := by omega
  have n13 : ¬ s3.timestamp ≤ s1.timestamp := by omega
  have n12 : ¬ s2.timestamp ≤ s1.timestamp := by omega
  have hs : sortByTimestampDesc [s1, s2, s3] = [s3, s2, s1] := by
    simp [sortByTimestampDesc, insertDesc, n23, n13, n12]
  exact ⟨hs, hs⟩

/-- C7 witness: three concrete submissions with timestamps 1 < 2 < 3. -/
theorem listing_descending_witness :
    listAllMemory [⟨"a", none, none, 1, .null, .null⟩,
        ⟨"b", none, none, 2, .null, .null⟩,
        ⟨"c", none, none, 3, .null, .null⟩] =
      [⟨"c", none, none, 3, .null, .null⟩, ⟨"b", none, none, 2, .null, .null⟩,
        ⟨"a", none, none, 1, .null, .null⟩] ∧
    listAllMongo [⟨"a", none, none, 1, .null, .null⟩,
        ⟨"b", none, none, 2, .null, .null⟩,
        ⟨"c", none, none, 3, .null, .null⟩] =
      [⟨"c", none, none, 3, .null, .null⟩, ⟨"b", none, none, 2, .null, .null⟩,
        ⟨"a", none, none, 1, .null, .null⟩] :=
  listing_descending ⟨"a", none, none, 1, .null, .null⟩
    ⟨"b", none, none, 2, .null, .null⟩ ⟨"c", none, none, 3, .null, .null⟩
    (by decide) (by decide)

/-- C8: patching an existing id with only `helpfulResponse: true` returns a
Submission identical to the stored one except that `helpfulResponse` is
true, and replaces only that record in the store: the merge is shallow, so
every field not supplied in the patch body is left untouched (shown for
both backends). -/
theorem patch_helpful_shallow (pre : List Submission) (old : Submission)
    (post : List Submission) (hpre : ∀ s ∈ pre, s.id ≠ old.id) :
    patchInMemory (pre ++ old :: post) old.id helpfulTruePatch =
      ({ status := 200, body := .sub { old with helpfulResponse := .bool true } },
        pre ++ { old with helpfulResponse := .bool true } :: post) ∧
    patchMongo (pre ++ old :: post) old.id helpfulTruePatch =
      ({ status := 200, body := .sub { old with helpfulResponse := .bool true } },
        pre ++ { old with helpfulResponse := .bool true } :: post) := by
  have hm : mergePatch old helpfulTruePatch =
      { old with helpfulResponse := .bool true } := rfl
  have hu := updateById_found helpfulTruePatch pre old post hpre
  rw [hm] at hu
  constructor
  · unfold patchInMemory
    rw [hu]
  · unfold patchMongo
    rw [hu]

/-- C8 witness: the shallow-merge patch on a one-record store. -/
theorem patch_helpful_shallow_witness :
    patchInMemory ([] ++ ⟨"a", some (.num 5), some (.str "good"), 7,
        fallbackAnalysis, .null⟩ :: []) "a" helpfulTruePatch =
      ({ status := 200, body := .sub ⟨"a", some (.num 5), some (.str "good"), 7,
          fallbackAnalysis, .bool true⟩ },
        [] ++ ⟨"a", some (.num 5), some (.str "good"), 7,
          fallbackAnalysis, .bool true⟩ :: []) ∧
    patchMongo ([] ++ ⟨"a", some (.num 5), some (.str "good"), 7,
        fallbackAnalysis, .null⟩ :: []) "a" helpfulTruePatch =
      ({ status := 200, body := .sub ⟨"a", some (.num 5), some (.str "good"), 7,
          fallbackAnalysis, .bool true⟩ },
        [] ++ ⟨"a", some (.num 5), some (.str "good"), 7,
          fallbackAnalysis, .bool true⟩ :: []) :=
  patch_helpful_shallow [] ⟨"a", some (.num 5), some (.str "good"), 7,
    fallbackAnalysis, .null⟩ [] (by simp)

end FeedbackApp
